import Mathlib

/-!
Shallow embedding of `dicom2glb.py` (NIAID AMI 2024 examples): the
DICOM/NIfTI → segmentation → per-label STL → Blender scene pipeline.

Modelling conventions:
* Python strings are Lean `String`s; Python's `needle in haystack`
  substring test is `strIn`, `str.lower()` is `lowerStr`,
  `str.endswith` is `strEnds` (the inputs here are ASCII).
* The numpy scalar array of the label map is a `List Int`; `np.unique`
  (sorted distinct values) is `uniqueLabels`.
* VTK filters are opaque: a mesh is modelled as the trace of filter
  applications (`List MeshOp`).  A filter call appends its tag to the
  trace of its *input* mesh; VTK filters never mutate their input, so a
  discarded filter output leaves the input trace unchanged.
* External failure (an exception thrown by a third-party filter or a
  subprocess exit code) is an oracle parameter of the embedded function.
* Python dicts are association lists in insertion order (`lookupStr`
  is `dict.get`).
-/

namespace Dicom2Glb

/-- `occursIn needle hay`: Python's `needle in hay` on character lists. -/
def occursIn (needle : List Char) : List Char → Bool
  | [] => needle.isEmpty
  | c :: t => needle.isPrefixOf (c :: t) || occursIn needle t

/-- Python `needle in hay` for strings. -/
def strIn (needle hay : String) : Bool := occursIn needle.data hay.data

/-- Python `s.endswith(suffix)`. -/
def strEnds (s suf : String) : Bool := suf.data.isSuffixOf s.data

/-- Python `s.lower()`, character-wise (the names here are ASCII). -/
def lowerStr (s : String) : String := ⟨s.data.map Char.toLower⟩

/-- `dict.get(k)` on an insertion-ordered association list. -/
def lookupStr {α : Type} (m : List (String × α)) (k : String) : Option α :=
  (m.find? (fun p => p.1 == k)).map (fun p => p.2)

/-- `VALID_TASKS` from `dicom2glb.py` (lines 17–21), in source order. -/
def VALID_TASKS : List String :=
  ["total", "total_mr", "lung_vessels", "body", "cerebral_bleed", "hip_implant",
   "coronary_arteries", "pleural_pericard_effusion", "head_glands_cavities",
   "head_muscles", "headneck_bones_vessels", "headneck_muscles"]

/-- The task-resolution scan inside `get_class_name`: the first entry of
`VALID_TASKS` that occurs as a substring of the volume path. -/
def findTask (nii_path : String) : Option String :=
  VALID_TASKS.find? (fun t => strIn t nii_path)

/-- The class map: task name → (label string → class name), as loaded from
`ts_class_map.json`. -/
abbrev ClassMap := List (String × List (String × String))

/-- `get_class_name(label, class_map, nii_path)` (`dicom2glb.py` 36–48):
stringify the label, find the task by substring scan over `VALID_TASKS`,
then `class_map.get(task, {}).get(label, label)`. -/
def get_class_name (label : Int) (class_map : ClassMap) (nii_path : String) : String :=
  let labelStr := toString label
  let taskMap : List (String × String) :=
    match findTask nii_path with
    | none => []
    | some t => (lookupStr class_map t).getD []
  (lookupStr taskMap labelStr).getD labelStr

/-- Tags for the VTK filter stages of `vtk_nii_to_stl`.  A mesh is the
trace of filter outputs it passed through; each filter appends its tag. -/
inductive MeshOp where
  | thresholdBin (label : Int)
  | padOne
  | marchingCubes
  | smoothRelax (iterations : Nat) (relaxationFactor : ℚ)
  | largestRegion
  | cleaned
  | smoothSinc (iterations : Nat)
  | decimated (targetReduction : ℚ)
  deriving Repr, DecidableEq

/-- A VTK polydata mesh, abstracted as the trace of filters applied. -/
abbrev Mesh := List MeshOp

/-- `cleanMesh(mesh, connectivityFilter)` (`dicom2glb.py` 178–205):
optionally extract the largest region, then `vtkCleanPolyData`, wrapped in
`try/except BaseException`; on any exception it prints and returns `None`.
`cleanThrows` is the oracle for the filter raising. -/
def cleanMesh (mesh : Mesh) (connectivityFilter : Bool) (cleanThrows : Bool) :
    Option Mesh :=
  if cleanThrows then none
  else some ((if connectivityFilter then mesh ++ [MeshOp.largestRegion] else mesh)
              ++ [MeshOp.cleaned])

/-- `smoothMesh(mesh, nIterations)` (207–218): `vtkWindowedSincPolyDataFilter`,
no exception handling; a null input propagates as a null output. -/
def smoothMesh (mesh : Option Mesh) (nIterations : Nat) : Option Mesh :=
  mesh.map (fun m => m ++ [MeshOp.smoothSinc nIterations])

/-- `reduceMesh(mymesh, reductionFactor)` (230–246): `vtkDecimatePro`
wrapped in `try/except BaseException`, returning `None` on an exception. -/
def reduceMesh (mymesh : Option Mesh) (reductionFactor : ℚ)
    (reduceThrows : Bool) : Option Mesh :=
  if reduceThrows then none
  else mymesh.map (fun m => m ++ [MeshOp.decimated reductionFactor])

/-- `np.unique(image_array)`: the distinct scalar values in ascending order. -/
def uniqueLabels (image_array : List Int) : List Int :=
  image_array.dedup.insertionSort (· ≤ ·)

/-- `os.path.join` with a single separator, as used for the STL path. -/
def joinPath (d f : String) : String := d ++ "/" ++ f

/-- One attempted STL write of `vtk_nii_to_stl`: the label processed, the
path handed to `vtkSTLWriter`, and the mesh handed to it. -/
structure WriteRec where
  label : Int
  stl_path : String
  mesh : Option Mesh
  deriving Repr, DecidableEq

/-- Body of the per-label loop of `vtk_nii_to_stl` (122–175): threshold to a
binary mask, pad by one voxel, marching cubes at 0.5, relaxation smoothing
(70 iterations, factor 0.1), then `mesh = cleanMesh(...)`.  The results of
`smoothMesh(mesh, 20)` and `reduceMesh(mesh, 0.5)` are computed but not
bound to anything (VTK filters do not mutate their input), and the writer
is handed `mesh`.  The STL path is the class name from `get_class_name`
joined onto the task directory. -/
def processLabel (class_map : ClassMap) (nii_path stl_task_dir : String)
    (cleanThrows reduceThrows : Bool) (label : Int) : WriteRec :=
  let binary : Mesh := [MeshOp.thresholdBin label]
  let padded : Mesh := binary ++ [MeshOp.padOne]
  let surfaced : Mesh := padded ++ [MeshOp.marchingCubes]
  let smoothed : Mesh := surfaced ++ [MeshOp.smoothRelax 70 (1/10)]
  let mesh := cleanMesh smoothed false cleanThrows
  let _ := smoothMesh mesh 20
  let _ := reduceMesh mesh (1/2) reduceThrows
  let class_name := get_class_name label class_map nii_path
  { label := label
    stl_path := joinPath stl_task_dir (class_name ++ ".stl")
    mesh := mesh }

/-- `vtk_nii_to_stl(nii_path, stl_task_dir)` (98–175) after the reader:
for every value of `np.unique` of the scalar array, skip label 0
(`continue`), otherwise run the per-label pipeline and write one STL.
`class_map` is the content of `ts_class_map.json`; the throw oracles are
per label. -/
def vtk_nii_to_stl (class_map : ClassMap) (image_array : List Int)
    (nii_path stl_task_dir : String) (cleanThrows reduceThrows : Int → Bool) :
    List WriteRec :=
  ((uniqueLabels image_array).filter (fun label => !(label == 0))).map
    (fun label => processLabel class_map nii_path stl_task_dir
      (cleanThrows label) (reduceThrows label) label)

/-- Modelled from the spec (§4.2 steps 1–8): the full filter chain ending
in decimation — threshold, pad, marching cubes, smoothing, cleaning,
windowed-sinc smoothing, then decimation by the fixed 0.5 fraction — all
applied to the mesh that gets written.  Stated for comparison with the
mesh `processLabel` actually hands to the writer. -/
def specFullChainMesh (label : Int) : Mesh :=
  [MeshOp.thresholdBin label, MeshOp.padOne, MeshOp.marchingCubes,
   MeshOp.smoothRelax 70 (1/10), MeshOp.cleaned, MeshOp.smoothSinc 20,
   MeshOp.decimated (1/2)]

/-- A Blender material as configured by `create_material` (273–284):
base color, roughness, metallic, coat weight.  The float literals of the
source are embedded as the rationals they denote. -/
structure Material where
  matName : String
  color : ℚ × ℚ × ℚ × ℚ
  roughness : ℚ
  metallic : ℚ
  clearcoat : ℚ
  deriving Repr, DecidableEq

/-- `create_material(name, color, roughness, metallic, clearcoat)`. -/
def create_material (name : String) (color : ℚ × ℚ × ℚ × ℚ)
    (roughness metallic clearcoat : ℚ) : Material :=
  { matName := name, color := color, roughness := roughness,
    metallic := metallic, clearcoat := clearcoat }

/-- `assign_materials()` (287–313): the materials dict returned to the
caller, keyed `bone` … `gland`, in source order.  Note there are no
`fluid`, `infiltrate`, `implant` or `tumor` entries. -/
def assign_materials : List (String × Material) :=
  [("bone", create_material "bone_mat" (1, 965/1000, 947/1000, 1) (2/10) 0 (5/10)),
   ("muscle", create_material "muscle_mat" (469/1000, 106/1000, 117/1000, 1) (2/10) 0 (5/10)),
   ("nervous", create_material "nervous_mat" (1, 917/1000, 867/1000, 1) (2/10) 0 (5/10)),
   ("spleen", create_material "spleen_mat" (67/1000, 4/100, 4/100, 1) (2/10) 0 (5/10)),
   ("kidney", create_material "kidney_mat" (124/1000, 43/1000, 14/1000, 1) (2/10) 0 (5/10)),
   ("liver", create_material "liver_mat" (116/1000, 4/100, 4/100, 1) (2/10) 0 (5/10)),
   ("stomach", create_material "stomach_mat" (452/1000, 267/1000, 219/1000, 1) (2/10) 0 (5/10)),
   ("lung", create_material "lung_mat" (621/1000, 364/1000, 310/1000, 1) (2/10) 0 (5/10)),
   ("artery", create_material "artery_mat" (808/1000, 587/1000, 565/1000, 1) (2/10) 0 (5/10)),
   ("cartilage", create_material "cartilage_mat" (766/1000, 807/1000, 888/1000, 1) (2/10) 0 (5/10)),
   ("vein", create_material "vein_mat" (108/1000, 24/1000, 58/1000, 1) (2/10) 0 (5/10)),
   ("gland", create_material "gland_mat" (901/1000, 783/1000, 617/1000, 1) (2/10) 0 (5/10))]

/-- The bone substring list of `assign_materials_to_objects` (319–323). -/
def boneSubs : List String :=
  ["vertebrae", "sacrum", "humerus", "scapula", "clavicula", "femur", "hip",
   "skull", "rib", "sternum", "intervertebral_discs", "vertebrae_body",
   "zygomatic_arch", "styloid_process", "thyroid_cartilage",
   "cricoid_cartilage", "ulna", "radius", "carpal", "metacarpal",
   "phalanges_hand", "patella", "tibia", "fibula", "tarsal", "metatarsal",
   "phalanges_feet", "hyoid"]

/-- The stomach-bucket substring list (line 331). -/
def stomachSubs : List String := ["stomach", "esophagus", "bowel", "colon", "duodenum"]

/-- The artery-bucket substring list (line 337). -/
def arterySubs : List String := ["artery", "aorta", "vessel", "vascular"]

/-- The vein-bucket substring list (line 339). -/
def veinSubs : List String :=
  ["vein", "vena", "iliac_vena", "inferior_vena_cava", "portal_vein",
   "brachiocephalic_trunk"]

/-- The cartilage-bucket substring list (line 341). -/
def cartilageSubs : List String := ["cartilage", "trachea"]

/-- The gland-bucket substring list (line 343). -/
def glandSubs : List String :=
  ["gland", "thyroid", "parathyroid", "adrenal", "pituitary", "hypothalamus",
   "thymus", "pancreas", "bladder", "prostate"]

/-- The fluid-bucket substring list (line 345). -/
def fluidSubs : List String := ["effusion", "hemorrhage"]

/-- The `if`/`elif` cascade of `assign_materials_to_objects` (315–354) on
the lower-cased object name: the materials-dict key whose branch fires,
with `"muscle"` as the fall-through default. -/
def assign_material_key (obj_name : String) : String :=
  let n := lowerStr obj_name
  if boneSubs.any (fun s => strIn s n) then "bone"
  else if strIn "spleen" n then "spleen"
  else if strIn "kidney" n then "kidney"
  else if strIn "liver" n then "liver"
  else if stomachSubs.any (fun s => strIn s n) then "stomach"
  else if strIn "lung" n then "lung"
  else if strIn "spinal" n then "nervous"
  else if arterySubs.any (fun s => strIn s n) then "artery"
  else if veinSubs.any (fun s => strIn s n) then "vein"
  else if cartilageSubs.any (fun s => strIn s n) then "cartilage"
  else if glandSubs.any (fun s => strIn s n) then "gland"
  else if fluidSubs.any (fun s => strIn s n) then "fluid"
  else if strIn "infiltrate" n then "infiltrate"
  else if strIn "implant" n then "implant"
  else if ["tumor", "tumour"].any (fun s => strIn s n) then "tumor"
  else "muscle"

/-- `obj.data.materials.append(materials[key])` for one object:
a missing dict key (Python `KeyError`) appends nothing — `none`. -/
def assign_materials_to_object (materials : List (String × Material))
    (obj_name : String) : Option Material :=
  lookupStr materials (assign_material_key obj_name)

/-- Modelled from the spec (§4.3 step 4, §8): the classification cascade
as an ordered list of (bucket, substring set) rules, evaluated in fixed
priority order with first-match-wins and a `"muscle"` default. -/
def materialRules : List (String × List String) :=
  [("bone", boneSubs), ("spleen", ["spleen"]), ("kidney", ["kidney"]),
   ("liver", ["liver"]), ("stomach", stomachSubs), ("lung", ["lung"]),
   ("nervous", ["spinal"]), ("artery", arterySubs), ("vein", veinSubs),
   ("cartilage", cartilageSubs), ("gland", glandSubs), ("fluid", fluidSubs),
   ("infiltrate", ["infiltrate"]), ("implant", ["implant"]),
   ("tumor", ["tumor", "tumour"])]

/-- Modelled from the spec: the bucket of the earliest rule of
`materialRules` matching the lower-cased name, else `"muscle"`. -/
def firstMatchKey (obj_name : String) : String :=
  ((materialRules.find? (fun r => r.2.any (fun s => strIn s (lowerStr obj_name)))).map
    (fun r => r.1)).getD "muscle"

/-- A Blender scene object: identity, name, and parent pointer. -/
structure SObj where
  oid : Nat
  sname : String
  parent : Option Nat
  deriving Repr, DecidableEq

/-- The Blender scene: objects in collection order plus a fresh-id counter. -/
structure Scene where
  objs : List SObj
  nextId : Nat
  deriving Repr, DecidableEq

/-- `create_parent_object(name)` (357–360): `bpy.data.objects.new(name, None)`
linked into the collection; returns the new scene and the new object's id. -/
def create_parent_object (name : String) (sc : Scene) : Scene × Nat :=
  ({ objs := sc.objs ++ [{ oid := sc.nextId, sname := name, parent := none }],
     nextId := sc.nextId + 1 }, sc.nextId)

/-- `obj.parent = target` for the object with id `oid`. -/
def setParent (sc : Scene) (oid pid : Nat) : Scene :=
  { sc with objs := sc.objs.map (fun o =>
      if o.oid == oid then { o with parent := some pid } else o) }

/-- `parent_object.children`: the objects whose parent pointer is `pid`. -/
def childrenOf (sc : Scene) (pid : Nat) : List SObj :=
  sc.objs.filter (fun o => o.parent == some pid)

/-- `bpy.data.objects.remove(obj)` for the object with id `oid`. -/
def removeObj (sc : Scene) (oid : Nat) : Scene :=
  { sc with objs := sc.objs.filter (fun o => !(o.oid == oid)) }

/-- The leaf branch of `group_objects` (385–393): for every scene object
whose lower-cased name contains one of the subgroup substrings and which
is not the group node itself, reparent it under the group node. -/
def assignLeaf (subgroups : List String) (pid : Nat) (sc : Scene) : Scene :=
  { sc with objs := sc.objs.map (fun o =>
      if subgroups.any (fun s => strIn s (lowerStr o.sname)) && !(o.oid == pid)
      then { o with parent := some pid } else o) }

mutual
/-- The group-definition tree of `group_definitions.json`: a value is
either a list of name substrings (leaf) or a nested dict (node). -/
inductive GroupDef where
  | leafG (subgroups : List String) : GroupDef
  | nodeG (entries : GroupEntries) : GroupDef

/-- The insertion-ordered entries of a group-definition dict. -/
inductive GroupEntries where
  | nil : GroupEntries
  | cons (name : String) (g : GroupDef) (rest : GroupEntries) : GroupEntries
end

mutual
/-- One iteration of the `for group_name, subgroups in …` loop of
`group_objects` (367–399): create the group node, parent it if a parent
was given, recurse into a dict or assign matching objects for a list, and
finally remove the node if it has no children *at this point*. -/
def groupOne (group_name : String) (subgroups : GroupDef)
    (parent : Option Nat) (sc : Scene) : Scene :=
  let created := create_parent_object group_name sc
  let pid := created.2
  let sc2 := match parent with
    | some p => setParent created.1 pid p
    | none => created.1
  let sc3 := match subgroups with
    | GroupDef.nodeG entries => group_objects entries (some pid) sc2
    | GroupDef.leafG subs => assignLeaf subs pid sc2
  if (childrenOf sc3 pid).isEmpty then removeObj sc3 pid else sc3

/-- `group_objects(group_definitions, parent)` (362–399): fold the loop
body over the dict entries in order. -/
def group_objects (defs : GroupEntries) (parent : Option Nat) (sc : Scene) :
    Scene :=
  match defs with
  | GroupEntries.nil => sc
  | GroupEntries.cons name g rest =>
      group_objects rest parent (groupOne name g parent sc)
end

/-- Two sibling leaf groups whose substring sets both match the same
object: the group definitions `{"A": ["x"], "B": ["x"]}`. -/
def exGroupDefs : GroupEntries :=
  GroupEntries.cons "A" (GroupDef.leafG ["x"])
    (GroupEntries.cons "B" (GroupDef.leafG ["x"]) GroupEntries.nil)

/-- A scene holding a single mesh object named `"x"`. -/
def exScene : Scene :=
  { objs := [{ oid := 0, sname := "x", parent := none }], nextId := 1 }

/-- `os.path.basename` (POSIX separators): the part after the last `/`. -/
def basename (p : String) : String :=
  ⟨(p.data.reverse.takeWhile (fun c => c != '/')).reverse⟩

/-- `os.path.splitext(s)[0]`: strip the extension after the last dot,
unless every character before that dot is itself a dot. -/
def splitext_root (s : String) : String :=
  let rev := s.data.reverse
  let extRev := rev.takeWhile (fun c => c != '.')
  match rev.drop extRev.length with
  | [] => s
  | _ :: frontRev =>
      if frontRev.any (fun c => c != '.') then ⟨frontRev.reverse⟩ else s

/-- The per-task segmentation output path of `run_segmentation` (line 69):
`segments_dir/basename-without-extension + "-" + task + ".nii"`. -/
def segmentationPath (input_path segments_dir task : String) : String :=
  joinPath segments_dir (splitext_root (basename input_path) ++ "-" ++ task ++ ".nii")

/-- The `TotalSegmentator` command line built by `run_segmentation`
(71–79): the fast variant inserts `--fast`, and `--stats` is appended
when requested. -/
def buildCommand (input_path segments_dir speed task : String)
    (stats : Bool) : List String :=
  let segmentation := segmentationPath input_path segments_dir task
  let command :=
    if speed == "fast" then
      ["TotalSegmentator", "-i", input_path, "-o", segmentation, "-d", "gpu",
       "--fast", "--task", task, "--ml"]
    else
      ["TotalSegmentator", "-i", input_path, "-o", segmentation, "-d", "gpu",
       "--task", task, "--ml"]
  if stats then command ++ ["--stats"] else command

/-- `subprocess.CalledProcessError(returncode, cmd)` as raised at line 95. -/
structure CalledProcessError where
  returncode : Int
  cmd : List String
  deriving Repr, DecidableEq

/-- `run_segmentation(input_path, segments_dir, speed, tasks, stats)`
(65–95): for each task in order, run the subprocess and raise
`CalledProcessError(return_code, command)` if its exit code is non-zero.
`exitCode` is the oracle giving the external process's exit code for a
command line. -/
def run_segmentation (input_path segments_dir speed : String)
    (tasks : List String) (stats : Bool) (exitCode : List String → Int) :
    Except CalledProcessError Unit :=
  match tasks with
  | [] => Except.ok ()
  | task :: rest =>
      let command := buildCommand input_path segments_dir speed task stats
      let return_code := exitCode command
      if return_code != 0 then Except.error ⟨return_code, command⟩
      else run_segmentation input_path segments_dir speed rest stats exitCode

/-- The CT validation loop of `main` (522–525): raise on the first task
ending in `"_mr"`. -/
def checkTasksCT : List String → Except String Unit
  | [] => Except.ok ()
  | task :: rest =>
      if strEnds task "_mr" then
        Except.error "MR tasks are not available for CT images."
      else checkTasksCT rest

/-- The MR validation loop of `main` (530–533): raise on the first task
not ending in `"_mr"`. -/
def checkTasksMR : List String → Except String Unit
  | [] => Except.ok ()
  | task :: rest =>
      if !(strEnds task "_mr") then
        Except.error "CT tasks are not available for MR images."
      else checkTasksMR rest

/-- The task/modality gate of `main` (518–533): for CT, empty (Python
falsy `None`) tasks default to `["total"]`, otherwise the CT loop runs;
for any other modality (argparse admits only `MR`), empty tasks default
to `["total_mr"]`, otherwise the MR loop runs.  A raised `ValueError` is
the `error` case. -/
def validate_tasks (modality : String) (tasks : List String) :
    Except String (List String) :=
  if modality == "CT" then
    if tasks.isEmpty then Except.ok ["total"]
    else
      match checkTasksCT tasks with
      | Except.error e => Except.error e
      | Except.ok _ => Except.ok tasks
  else
    if tasks.isEmpty then Except.ok ["total_mr"]
    else
      match checkTasksMR tasks with
      | Except.error e => Except.error e
      | Except.ok _ => Except.ok tasks

theorem occursIn_iff (needle hay : List Char) :
    occursIn needle hay = true ↔ needle <:+: hay := by
  induction hay with
  | nil =>
    simp [occursIn, List.isEmpty_iff, List.infix_nil]
  | cons c t ih =>
    simp only [occursIn, Bool.or_eq_true, List.isPrefixOf_iff_prefix, ih,
      List.infix_cons_iff]

theorem strIn_iff (needle hay : String) :
    strIn needle hay = true ↔ needle.data <:+: hay.data := by
  simp [strIn, occursIn_iff]

/-- If `"total_mr"` occurs in a path then so does `"total"`. -/
theorem strIn_total_of_total_mr (path : String)
    (h : strIn "total_mr" path = true) : strIn "total" path = true := by
  rw [strIn_iff] at h ⊢
  exact List.IsInfix.trans (List.IsPrefix.isInfix (by decide)) h

theorem findTask_eq_total_of_strIn_total (path : String)
    (h : strIn "total" path = true) : findTask path = some "total" := by
  rw [findTask, VALID_TASKS]
  exact List.find?_cons_of_pos _ h

end Dicom2Glb

/-- C10: `get_class_name` scans `VALID_TASKS` in list order and takes the
first entry occurring as a substring of the volume path; since `"total"`
precedes `"total_mr"` and is a substring of it, any path containing
`"total_mr"` resolves to the `"total"` class map: `findTask` returns
`some "total"`, and the class name is looked up in `class_map["total"]`,
never in `class_map["total_mr"]`. -/
theorem c10_total_mr_paths_resolve_to_total (path : String) (label : Int)
    (class_map : Dicom2Glb.ClassMap)
    (h : Dicom2Glb.strIn "total_mr" path = true) :
    Dicom2Glb.findTask path = some "total" ∧
    Dicom2Glb.get_class_name label class_map path =
      ((Dicom2Glb.lookupStr ((Dicom2Glb.lookupStr class_map "total").getD [])
          (toString label)).getD (toString label)) := by
  have htot : Dicom2Glb.strIn "total" path = true :=
    Dicom2Glb.strIn_total_of_total_mr path h
  have hfind := Dicom2Glb.findTask_eq_total_of_strIn_total path htot
  refine ⟨hfind, ?_⟩
  rw [Dicom2Glb.get_class_name, hfind]

/-- Witness for C10 at the concrete path `"case1-total_mr.nii"`. -/
theorem c10_witness :
    Dicom2Glb.findTask "case1-total_mr.nii" = some "total" :=
  (c10_total_mr_paths_resolve_to_total "case1-total_mr.nii" 1 [] (by decide)).1

namespace Dicom2Glb

theorem uniqueLabels_nodup (arr : List Int) : (uniqueLabels arr).Nodup :=
  (List.perm_insertionSort _ _).nodup_iff.mpr (List.nodup_dedup arr)

theorem mem_uniqueLabels {x : Int} {arr : List Int} :
    x ∈ uniqueLabels arr ↔ x ∈ arr := by
  rw [uniqueLabels, (List.perm_insertionSort _ _).mem_iff, List.mem_dedup]

theorem eq_singleton_one (l : List Int) (hnd : l.Nodup)
    (hall : ∀ x ∈ l, x = 1) (hmem : (1 : Int) ∈ l) : l = [1] := by
  cases l with
  | nil => cases hmem
  | cons a t =>
    have ha : a = 1 := hall a (List.mem_cons_self a t)
    subst ha
    cases t with
    | nil => rfl
    | cons b u =>
      have hb : b = 1 := hall b (by simp)
      have hnotin : (1 : Int) ∉ b :: u := (List.nodup_cons.mp hnd).1
      exact absurd (hb ▸ List.mem_cons_self b u) hnotin

end Dicom2Glb

/-- C4: `vtk_nii_to_stl` never writes an output file for label 0: the loop
hits `continue` on label 0, so every write record carries a non-zero
label, for every scalar array, class map, path and failure oracle. -/
theorem c4_label_zero_never_emitted (class_map : Dicom2Glb.ClassMap)
    (arr : List Int) (path dir : String) (ct rt : Int → Bool) :
    (Dicom2Glb.vtk_nii_to_stl class_map arr path dir ct rt).all
      (fun w => w.label != 0) = true := by
  rw [List.all_eq_true]
  intro w hw
  rw [Dicom2Glb.vtk_nii_to_stl] at hw
  obtain ⟨l, hl, rfl⟩ := List.mem_map.mp hw
  have h2 := (List.mem_filter.mp hl).2
  simpa [Dicom2Glb.processLabel, bne] using h2

/-- C5: with class map `{"total": {"1": "liver"}}` and a scalar array whose
values all lie in `{0, 1}` with label 1 present, the extractor run on a
path containing `"total"` writes exactly one file, named `liver.stl`, into
the task directory; and a label with no class-map entry falls back to the
raw integer string. -/
theorem c5_total_liver (arr : List Int) (path dir : String)
    (ct rt : Int → Bool) (h01 : ∀ x ∈ arr, x = 0 ∨ x = 1)
    (h1 : (1 : Int) ∈ arr) (hpath : Dicom2Glb.strIn "total" path = true) :
    (Dicom2Glb.vtk_nii_to_stl [("total", [("1", "liver")])] arr path dir
        ct rt).map (fun w => w.stl_path) = [Dicom2Glb.joinPath dir "liver.stl"] ∧
    ∀ (label : Int) (p : String),
      Dicom2Glb.get_class_name label [] p = toString label := by
  constructor
  · have hlabels : (Dicom2Glb.uniqueLabels arr).filter (fun l => !(l == 0)) = [1] := by
      apply Dicom2Glb.eq_singleton_one
      · exact (Dicom2Glb.uniqueLabels_nodup arr).filter _
      · intro x hx
        obtain ⟨hxu, hx0⟩ := List.mem_filter.mp hx
        have hxarr := Dicom2Glb.mem_uniqueLabels.mp hxu
        rcases h01 x hxarr with h | h
        · simp [h] at hx0
        · exact h
      · exact List.mem_filter.mpr ⟨Dicom2Glb.mem_uniqueLabels.mpr h1, by simp⟩
    rw [Dicom2Glb.vtk_nii_to_stl, hlabels]
    have hclass : Dicom2Glb.get_class_name 1 [("total", [("1", "liver")])] path
        = "liver" := by
      rw [Dicom2Glb.get_class_name,
        Dicom2Glb.findTask_eq_total_of_strIn_total path hpath]
      rfl
    simp only [List.map_cons, List.map_nil, Dicom2Glb.processLabel]
    rw [hclass]
    rfl
  · intro label p
    cases hf : Dicom2Glb.findTask p <;>
      simp [Dicom2Glb.get_class_name, hf, Dicom2Glb.lookupStr]

/-- Witness for C5: scalar array `[0, 1, 1]`, path `"stls/total"`. -/
theorem c5_witness :
    (Dicom2Glb.vtk_nii_to_stl [("total", [("1", "liver")])] [0, 1, 1]
        "stls/total" "out" (fun _ => false) (fun _ => false)).map
      (fun w => w.stl_path) = [Dicom2Glb.joinPath "out" "liver.stl"] :=
  (c5_total_liver [0, 1, 1] "stls/total" "out" (fun _ => false)
    (fun _ => false) (by decide) (by decide) (by decide)).1

/-- C2 (refutation of the claim as stated): the mesh handed to the STL
writer for label 1 is the output of `cleanMesh` — the chain ends at the
cleaning filter.  The outputs of `smoothMesh(mesh, 20)` and
`reduceMesh(mesh, 0.5)` are discarded, so the written mesh is not the
spec's full chain ending in decimation, and is not the output of the
decimation filter applied to any mesh at all. -/
theorem c2_decimation_discarded :
    (Dicom2Glb.processLabel [] "seg-total.nii" "stls/total" false false 1).mesh =
      some [Dicom2Glb.MeshOp.thresholdBin 1, Dicom2Glb.MeshOp.padOne,
        Dicom2Glb.MeshOp.marchingCubes,
        Dicom2Glb.MeshOp.smoothRelax 70 (1/10), Dicom2Glb.MeshOp.cleaned] ∧
    (Dicom2Glb.processLabel [] "seg-total.nii" "stls/total" false false 1).mesh ≠
      some (Dicom2Glb.specFullChainMesh 1) ∧
    ∀ m : Dicom2Glb.Mesh,
      (Dicom2Glb.processLabel [] "seg-total.nii" "stls/total" false false 1).mesh ≠
        some (m ++ [Dicom2Glb.MeshOp.decimated (1/2)]) := by
  refine ⟨rfl, fun h => by
    simpa [Dicom2Glb.specFullChainMesh] using congrArg List.length (Option.some.inj h), ?_⟩
  intro m hm
  have h2 : ([Dicom2Glb.MeshOp.thresholdBin 1, Dicom2Glb.MeshOp.padOne,
      Dicom2Glb.MeshOp.marchingCubes,
      Dicom2Glb.MeshOp.smoothRelax 70 (1/10), Dicom2Glb.MeshOp.cleaned] :
        Dicom2Glb.Mesh) = m ++ [Dicom2Glb.MeshOp.decimated (1/2)] :=
    Option.some.inj hm
  have h3 := congrArg List.getLast? h2
  rw [List.getLast?_concat] at h3
  exact absurd h3 (by decide)

/-- C8: the cleaning step's failure is swallowed: `cleanMesh` returns
`None` on an exception, the per-label loop still produces one write per
non-zero label whatever the clean-failure oracle says, and a label whose
cleaning failed is written with a null mesh rather than aborting. -/
theorem c8_clean_failure_swallowed (class_map : Dicom2Glb.ClassMap)
    (arr : List Int) (path dir : String) (ct rt : Int → Bool) :
    (∀ (m : Dicom2Glb.Mesh) (cf : Bool), Dicom2Glb.cleanMesh m cf true = none) ∧
    (Dicom2Glb.vtk_nii_to_stl class_map arr path dir ct rt).map
        (fun w => w.label) =
      (Dicom2Glb.uniqueLabels arr).filter (fun l => !(l == 0)) ∧
    ∀ w ∈ Dicom2Glb.vtk_nii_to_stl class_map arr path dir ct rt,
      ct w.label = true → w.mesh = none := by
  refine ⟨fun m cf => rfl, ?_, ?_⟩
  · rw [Dicom2Glb.vtk_nii_to_stl, List.map_map]
    exact List.map_id _
  · intro w hw hct
    rw [Dicom2Glb.vtk_nii_to_stl] at hw
    obtain ⟨l, hl, rfl⟩ := List.mem_map.mp hw
    have hcl : ct l = true := hct
    simp [Dicom2Glb.processLabel, Dicom2Glb.cleanMesh, hcl]

/-- Witness for C8: labels `{0, 2}` with the cleaning filter always
throwing: the label-2 write still happens and carries a null mesh. -/
theorem c8_witness :
    (Dicom2Glb.processLabel [] "p" "d" true true 2).mesh = none :=
  (c8_clean_failure_swallowed [] [0, 2] "p" "d" (fun _ => true)
    (fun _ => true)).2.2 _ (by decide) rfl

namespace Dicom2Glb

theorem findKey_cons (k : String) (subs : List String)
    (rest : List (String × List String)) (n : String) :
    ((List.find? (fun r => r.2.any (fun s => strIn s n)) ((k, subs) :: rest)).map
      (fun r => r.1)).getD "muscle"
    = if subs.any (fun s => strIn s n) then k
      else ((List.find? (fun r => r.2.any (fun s => strIn s n)) rest).map
        (fun r => r.1)).getD "muscle" := by
  cases h : subs.any (fun s => strIn s n) <;> simp [List.find?_cons, h]

end Dicom2Glb

/-- C3: the classification is a strict first-match-wins priority cascade:
for every object name, the bucket key chosen by the `elif` chain of
`assign_materials_to_objects` equals the bucket of the earliest matching
rule in the fixed priority list `materialRules`; in particular a name
containing both an artery-bucket substring and a vein-bucket substring
resolves to `"artery"`, whose check appears first. -/
theorem c3_priority_cascade :
    (∀ name, Dicom2Glb.assign_material_key name = Dicom2Glb.firstMatchKey name) ∧
    Dicom2Glb.assign_material_key "iliac_artery_and_vein" = "artery" ∧
    Dicom2Glb.firstMatchKey "iliac_artery_and_vein" = "artery" := by
  have hkey : ∀ name,
      Dicom2Glb.assign_material_key name = Dicom2Glb.firstMatchKey name := by
    intro name
    rw [Dicom2Glb.firstMatchKey, Dicom2Glb.materialRules]
    rw [Dicom2Glb.findKey_cons, Dicom2Glb.findKey_cons, Dicom2Glb.findKey_cons,
      Dicom2Glb.findKey_cons, Dicom2Glb.findKey_cons, Dicom2Glb.findKey_cons,
      Dicom2Glb.findKey_cons, Dicom2Glb.findKey_cons, Dicom2Glb.findKey_cons,
      Dicom2Glb.findKey_cons, Dicom2Glb.findKey_cons, Dicom2Glb.findKey_cons,
      Dicom2Glb.findKey_cons, Dicom2Glb.findKey_cons, Dicom2Glb.findKey_cons]
    simp only [Dicom2Glb.assign_material_key, List.any_cons, List.any_nil,
      Bool.or_false, List.find?_nil, Option.map_none', Option.getD_none]
  exact ⟨hkey, by decide, by rw [← hkey]; decide⟩

/-- C1 (refutation of the claim as stated): not every classification
branch can attach its bucket's material.  `assign_materials()` returns a
dict with twelve keys (`bone` … `gland`) and no `fluid`, `infiltrate`,
`implant` or `tumor` entry, while the cascade of
`assign_materials_to_objects` routes e.g. an object named
`"pleural_effusion"` to `materials['fluid']` — a Python `KeyError`, so no
material is appended there; an object hitting a defined bucket
(e.g. `"spleen"`) does get its material. -/
theorem c1_fluid_bucket_missing :
    Dicom2Glb.assign_material_key "pleural_effusion" = "fluid" ∧
    Dicom2Glb.lookupStr Dicom2Glb.assign_materials "fluid" = none ∧
    Dicom2Glb.lookupStr Dicom2Glb.assign_materials "infiltrate" = none ∧
    Dicom2Glb.lookupStr Dicom2Glb.assign_materials "implant" = none ∧
    Dicom2Glb.lookupStr Dicom2Glb.assign_materials "tumor" = none ∧
    Dicom2Glb.assign_materials_to_object Dicom2Glb.assign_materials
      "pleural_effusion" = none ∧
    (Dicom2Glb.assign_materials_to_object Dicom2Glb.assign_materials
      "spleen").isSome = true := by
  refine ⟨by decide, by decide, by decide, by decide, by decide, by decide, by decide⟩

namespace Dicom2Glb

theorem mapIdOn {α : Type} (l : List α) (f : α → α) (h : ∀ x ∈ l, f x = x) :
    l.map f = l := by
  induction l with
  | nil => rfl
  | cons a t ih =>
    rw [List.map_cons, h a (List.mem_cons_self a t),
      ih (fun x hx => h x (List.mem_cons_of_mem a hx))]

theorem filterTrueOn {α : Type} (l : List α) (p : α → Bool)
    (h : ∀ x ∈ l, p x = true) : l.filter p = l := by
  induction l with
  | nil => rfl
  | cons a t ih =>
    rw [List.filter_cons, h a (List.mem_cons_self a t),
      ih (fun x hx => h x (List.mem_cons_of_mem a hx))]
    simp

theorem filterFalseOn {α : Type} (l : List α) (p : α → Bool)
    (h : ∀ x ∈ l, p x = false) : l.filter p = [] := by
  induction l with
  | nil => rfl
  | cons a t ih =>
    rw [List.filter_cons, h a (List.mem_cons_self a t),
      ih (fun x hx => h x (List.mem_cons_of_mem a hx))]
    simp

end Dicom2Glb

namespace Dicom2Glb

theorem setParent_fresh (name : String) (p : Nat) (sc : Scene)
    (hoid : ∀ o ∈ sc.objs, (o.oid == sc.nextId) = false) :
    setParent { objs := sc.objs ++ [{ oid := sc.nextId, sname := name, parent := none }],
                nextId := sc.nextId + 1 } sc.nextId p =
    { objs := sc.objs ++ [{ oid := sc.nextId, sname := name, parent := some p }],
      nextId := sc.nextId + 1 } := by
  simp only [setParent, List.map_append, Scene.mk.injEq, and_true]
  rw [mapIdOn sc.objs _ (fun o ho => by simp [hoid o ho])]
  simp

theorem groupOne_leaf_aux (name : String) (subs : List String)
    (np : Option Nat) (sc : Scene)
    (hnp : (np == some sc.nextId) = false)
    (hoid : ∀ o ∈ sc.objs, (o.oid == sc.nextId) = false)
    (hpar : ∀ o ∈ sc.objs, (o.parent == some sc.nextId) = false)
    (hnomatch : ∀ o ∈ sc.objs,
      subs.any (fun s => strIn s (lowerStr o.sname)) = false) :
    (let sc2 : Scene :=
      { objs := sc.objs ++ [{ oid := sc.nextId, sname := name, parent := np }],
        nextId := sc.nextId + 1 }
     let sc3 := assignLeaf subs sc.nextId sc2
     (if (childrenOf sc3 sc.nextId).isEmpty then removeObj sc3 sc.nextId
      else sc3).objs) = sc.objs := by
  have hassign : assignLeaf subs sc.nextId
      { objs := sc.objs ++ [{ oid := sc.nextId, sname := name, parent := np }],
        nextId := sc.nextId + 1 } =
      { objs := sc.objs ++ [{ oid := sc.nextId, sname := name, parent := np }],
        nextId := sc.nextId + 1 } := by
    simp only [assignLeaf, Scene.mk.injEq, and_true]
    rw [List.map_append]
    rw [mapIdOn sc.objs _ (fun o ho => by simp [hnomatch o ho])]
    simp
  have hchildren : childrenOf
      { objs := sc.objs ++ [{ oid := sc.nextId, sname := name, parent := np }],
        nextId := sc.nextId + 1 } sc.nextId = [] := by
    simp only [childrenOf]
    rw [List.filter_append]
    rw [filterFalseOn sc.objs _ hpar]
    simp [List.filter_cons, hnp]
  simp only []
  rw [hassign, hchildren]
  simp only [List.isEmpty_nil, if_true, removeObj, List.filter_append]
  rw [filterTrueOn sc.objs _ (fun o ho => by simp [hoid o ho])]
  simp

end Dicom2Glb

/-- C6 (refutation of the claim as stated): `group_objects` on the
definitions `{"A": ["x"], "B": ["x"]}` over a scene holding one object
`"x"` leaves the synthetic group node `"A"` (id 1) in the final scene
even though it ends up with no children: `"A"` captured `"x"` and passed
its own emptiness check, but the later sibling `"B"` reparented `"x"`
away, and the prune check runs only once per node. -/
theorem c6_counterexample :
    Dicom2Glb.group_objects Dicom2Glb.exGroupDefs none Dicom2Glb.exScene =
      { objs := [{ oid := 0, sname := "x", parent := some 2 },
                 { oid := 1, sname := "A", parent := none },
                 { oid := 2, sname := "B", parent := none }], nextId := 3 } ∧
    Dicom2Glb.childrenOf
      (Dicom2Glb.group_objects Dicom2Glb.exGroupDefs none Dicom2Glb.exScene) 1 = [] ∧
    (Dicom2Glb.group_objects Dicom2Glb.exGroupDefs none Dicom2Glb.exScene).objs.any
      (fun o => o.oid == 1 && o.sname == "A") = true :=
  ⟨by decide, by decide, by decide⟩

/-- C6 amended: a group node that has no children at the moment of its own
post-walk check is removed then — in particular a leaf group none of whose
substrings matches any scene object is removed immediately and leaves the
scene's objects unchanged.  (A node emptied *later*, by a subsequent group
reparenting its children away, may survive; see the counterexample.) -/
theorem c6_empty_leaf_group_removed (name : String) (subs : List String)
    (parent : Option Nat) (sc : Dicom2Glb.Scene)
    (hwf : ∀ o ∈ sc.objs, o.oid < sc.nextId)
    (hpar : ∀ o ∈ sc.objs, (o.parent == some sc.nextId) = false)
    (hparent : parent ≠ some sc.nextId)
    (hnomatch : ∀ o ∈ sc.objs,
      subs.any (fun s => Dicom2Glb.strIn s (Dicom2Glb.lowerStr o.sname)) = false) :
    (Dicom2Glb.groupOne name (Dicom2Glb.GroupDef.leafG subs) parent sc).objs
      = sc.objs := by
  have hoid : ∀ o ∈ sc.objs, (o.oid == sc.nextId) = false := fun o ho =>
    beq_eq_false_iff_ne.mpr (Nat.ne_of_lt (hwf o ho))
  cases parent with
  | none =>
    exact Dicom2Glb.groupOne_leaf_aux name subs none sc (by simp) hoid hpar hnomatch
  | some p =>
    have hnp : ((some p : Option Nat) == some sc.nextId) = false :=
      beq_eq_false_iff_ne.mpr hparent
    have haux := Dicom2Glb.groupOne_leaf_aux name subs (some p) sc hnp hoid hpar hnomatch
    simp only [Dicom2Glb.groupOne, Dicom2Glb.create_parent_object]
    rw [Dicom2Glb.setParent_fresh name p sc hoid]
    exact haux

/-- Witness for the amended C6: a leaf group `"organs" → ["liver"]` over a
scene holding only `"x"` matches nothing and vanishes. -/
theorem c6_witness :
    (Dicom2Glb.groupOne "organs" (Dicom2Glb.GroupDef.leafG ["liver"]) none
      { objs := [{ oid := 0, sname := "x", parent := none }], nextId := 1 }).objs =
      [{ oid := 0, sname := "x", parent := none }] :=
  c6_empty_leaf_group_removed "organs" ["liver"] none
    { objs := [{ oid := 0, sname := "x", parent := none }], nextId := 1 }
    (by decide) (by decide) (by decide) (by decide)

/-- C7: `run_segmentation` raises exactly when some task's subprocess
exits non-zero: the result is `ok` when every task's command exits 0, and
otherwise it is a `CalledProcessError` carrying the exit code and the
command line of the first task whose subprocess exited non-zero; tasks
before it (exit code 0) raise nothing. -/
theorem c7_segmentation_error_contract (input_path segments_dir speed : String)
    (tasks : List String) (stats : Bool) (exitCode : List String → Int) :
    Dicom2Glb.run_segmentation input_path segments_dir speed tasks stats exitCode =
      match tasks.find? (fun t =>
          exitCode (Dicom2Glb.buildCommand input_path segments_dir speed t stats) != 0) with
      | none => Except.ok ()
      | some t =>
          Except.error
            { returncode := exitCode (Dicom2Glb.buildCommand input_path segments_dir speed t stats),
              cmd := Dicom2Glb.buildCommand input_path segments_dir speed t stats } := by
  induction tasks with
  | nil => rfl
  | cons task rest ih =>
    cases h : (exitCode (Dicom2Glb.buildCommand input_path segments_dir speed task stats) != 0) <;>
      simp [Dicom2Glb.run_segmentation, List.find?_cons, h, ih]

/-- C9: the batch driver's task/modality gate: with modality CT a task
list is rejected (ValueError) exactly when some requested task ends in
`"_mr"`, with modality MR exactly when some requested task does not end
in `"_mr"`, and an empty task list defaults to `["total"]` for CT and
`["total_mr"]` for MR with no error. -/
theorem c9_modality_gate (tasks : List String) :
    Dicom2Glb.validate_tasks "CT" [] = Except.ok ["total"] ∧
    Dicom2Glb.validate_tasks "MR" [] = Except.ok ["total_mr"] ∧
    Dicom2Glb.validate_tasks "CT" tasks =
      (if tasks.isEmpty then Except.ok ["total"]
       else if tasks.any (fun t => Dicom2Glb.strEnds t "_mr") then
         Except.error "MR tasks are not available for CT images."
       else Except.ok tasks) ∧
    Dicom2Glb.validate_tasks "MR" tasks =
      (if tasks.isEmpty then Except.ok ["total_mr"]
       else if tasks.any (fun t => !(Dicom2Glb.strEnds t "_mr")) then
         Except.error "CT tasks are not available for MR images."
       else Except.ok tasks) := by
  have hCT : ∀ ts : List String, Dicom2Glb.checkTasksCT ts =
      (if ts.any (fun t => Dicom2Glb.strEnds t "_mr") then
        Except.error "MR tasks are not available for CT images."
       else Except.ok ()) := by
    intro ts
    induction ts with
    | nil => rfl
    | cons task rest ih =>
      cases h : Dicom2Glb.strEnds task "_mr" <;>
        simp [Dicom2Glb.checkTasksCT, h, ih]
  have hMR : ∀ ts : List String, Dicom2Glb.checkTasksMR ts =
      (if ts.any (fun t => !(Dicom2Glb.strEnds t "_mr")) then
        Except.error "CT tasks are not available for MR images."
       else Except.ok ()) := by
    intro ts
    induction ts with
    | nil => rfl
    | cons task rest ih =>
      cases h : Dicom2Glb.strEnds task "_mr" <;>
        simp [Dicom2Glb.checkTasksMR, h, ih]
  refine ⟨rfl, rfl, ?_, ?_⟩
  · cases he : tasks.isEmpty <;>
      cases ha : tasks.any (fun t => Dicom2Glb.strEnds t "_mr") <;>
        simp [Dicom2Glb.validate_tasks, he, ha, hCT]
  · cases he : tasks.isEmpty <;>
      cases ha : tasks.any (fun t => !(Dicom2Glb.strEnds t "_mr")) <;>
        simp [Dicom2Glb.validate_tasks, he, ha, hMR]
